import Mathlib

/-!
Verification development for the elateChatBot session/request resiliency core.

The definitions below are a shallow embedding of the Python sources:
  * `elate_chatbot/edge_case_middleware.py` (CircuitBreaker,
    EdgeCaseHandlingMiddleware, RetryMiddleware, retry_on_failure)
  * `users/middleware.py` (SessionManagementMiddleware)
  * `users/models.py` (UserSession)

Machine time (`time.time()` / `timezone.now()`) is modelled as an `Int`
parameter threaded explicitly.  Raised exceptions become explicit result
constructors, and Python's `except`-and-log blocks become boolean
fault-injection flags on the inputs (`raise_in_*`), so that "an exception
occurs inside this `try` body" is an explicit input of the model.
JSON responses are projected onto the envelope fields the code builds
(`status`, `error`, `message`, `error_id`, `code`); per-exception extras
(`traceback`, `errors`, `type`) are omitted.  UUIDs are modelled as a
counter supply: `freshUuid g = (g, g+1)`, so ids drawn later are distinct
from ids drawn earlier.
-/

namespace Elate

/-- Values of `CircuitBreaker.state`: `'CLOSED'`, `'OPEN'`, `'HALF_OPEN'`. -/
inductive CBState
  | CLOSED
  | OPEN
  | HALF_OPEN
deriving DecidableEq, Repr

/-- Embedding of `CircuitBreaker.__init__` state
(`edge_case_middleware.py` lines 44-50). `last_failure_time` starts as
`None`; it is only read while the state is `OPEN`, where it has always
been set by `_on_failure`. -/
structure CircuitBreaker where
  failure_threshold : Nat
  recovery_timeout : Int
  failure_count : Nat
  last_failure_time : Option Int
  state : CBState
deriving DecidableEq, Repr

/-- A fresh breaker: `CircuitBreaker(failure_threshold, recovery_timeout)`. -/
def CircuitBreaker.init (threshold : Nat) (timeout : Int) : CircuitBreaker :=
  { failure_threshold := threshold
    recovery_timeout := timeout
    failure_count := 0
    last_failure_time := none
    state := .CLOSED }

/-- Embedding of `CircuitBreaker._on_success` (lines 68-71). -/
def CircuitBreaker.on_success (cb : CircuitBreaker) : CircuitBreaker :=
  { cb with failure_count := 0, state := .CLOSED }

/-- Embedding of `CircuitBreaker._on_failure` (lines 73-80). -/
def CircuitBreaker.on_failure (cb : CircuitBreaker) (now : Int) : CircuitBreaker :=
  let fc := cb.failure_count + 1
  { cb with
    failure_count := fc
    last_failure_time := some now
    state := if cb.failure_threshold ≤ fc then .OPEN else cb.state }

/-- Outcome of `CircuitBreaker.call`: the wrapped operation returned,
the wrapped operation raised (and the error was re-raised), or the call
was rejected with the "Circuit breaker is OPEN" exception without
invoking the operation. -/
inductive CallOutcome
  | success
  | opFailure
  | circuitOpen
deriving DecidableEq, Repr

/-- Embedding of `CircuitBreaker.call` (lines 52-66).  The wrapped
operation is abstracted by whether it would succeed (`opSucceeds`); the
third component counts how many times the operation was invoked (0 or 1). -/
def CircuitBreaker.call (cb : CircuitBreaker) (now : Int) (opSucceeds : Bool) :
    CallOutcome × CircuitBreaker × Nat :=
  let exec : CircuitBreaker → CallOutcome × CircuitBreaker × Nat := fun c =>
    if opSucceeds then (.success, c.on_success, 1)
    else (.opFailure, c.on_failure now, 1)
  if cb.state = .OPEN then
    if cb.recovery_timeout < now - (cb.last_failure_time.getD 0) then
      exec { cb with state := .HALF_OPEN }
    else
      (.circuitOpen, cb, 0)
  else
    exec cb

/-- A run of consecutive failing calls at the given timestamps. -/
def failRun (cb : CircuitBreaker) : List Int → CircuitBreaker
  | [] => cb
  | t :: ts => failRun (cb.call t false).2.1 ts

lemma call_closed_fail (cb : CircuitBreaker) (t : Int) (h : cb.state = .CLOSED) :
    cb.call t false = (.opFailure, cb.on_failure t, 1) := by
  simp [CircuitBreaker.call, h]

lemma on_failure_fields (cb : CircuitBreaker) (t : Int) :
    (cb.on_failure t).failure_count = cb.failure_count + 1
    ∧ (cb.on_failure t).failure_threshold = cb.failure_threshold
    ∧ (cb.on_failure t).recovery_timeout = cb.recovery_timeout :=
  ⟨rfl, rfl, rfl⟩

lemma on_failure_state_closed (cb : CircuitBreaker) (t : Int)
    (h : cb.state = .CLOSED) (hlt : cb.failure_count + 1 < cb.failure_threshold) :
    (cb.on_failure t).state = .CLOSED := by
  simp only [CircuitBreaker.on_failure]
  rw [if_neg (by omega)]
  exact h

lemma on_failure_state_open (cb : CircuitBreaker) (t : Int)
    (hge : cb.failure_threshold ≤ cb.failure_count + 1) :
    (cb.on_failure t).state = .OPEN := by
  simp only [CircuitBreaker.on_failure]
  rw [if_pos hge]

lemma failRun_stays_closed (ts : List Int) (cb : CircuitBreaker)
    (h : cb.state = .CLOSED)
    (hlt : cb.failure_count + ts.length < cb.failure_threshold) :
    (failRun cb ts).state = .CLOSED ∧
    (failRun cb ts).failure_count = cb.failure_count + ts.length ∧
    (failRun cb ts).failure_threshold = cb.failure_threshold ∧
    (failRun cb ts).recovery_timeout = cb.recovery_timeout := by
  induction ts generalizing cb with
  | nil =>
    simp [failRun, h]
  | cons t ts ih =>
    have hstep : (cb.call t false).2.1 = cb.on_failure t := by
      rw [call_closed_fail cb t h]
    obtain ⟨hcnt, hth, hto⟩ := on_failure_fields cb t
    have hlt1 : cb.failure_count + 1 < cb.failure_threshold := by
      simp only [List.length_cons] at hlt; omega
    have hstate : (cb.on_failure t).state = .CLOSED :=
      on_failure_state_closed cb t h hlt1
    have hlt2 : (cb.on_failure t).failure_count + ts.length <
        (cb.on_failure t).failure_threshold := by
      rw [hcnt, hth]; simp only [List.length_cons] at hlt; omega
    obtain ⟨h1, h2, h3, h4⟩ := ih (cb.on_failure t) hstate hlt2
    refine ⟨?_, ?_, ?_, ?_⟩ <;> simp only [failRun, hstep]
    · exact h1
    · rw [h2, hcnt]; simp only [List.length_cons]; omega
    · rw [h3, hth]
    · rw [h4, hto]

lemma failRun_opens (ts : List Int) (cb : CircuitBreaker)
    (h : cb.state = .CLOSED) (hne : ts ≠ [])
    (heq : cb.failure_count + ts.length = cb.failure_threshold) :
    (failRun cb ts).state = .OPEN := by
  induction ts generalizing cb with
  | nil => exact absurd rfl hne
  | cons t ts ih =>
    have hstep : (cb.call t false).2.1 = cb.on_failure t := by
      rw [call_closed_fail cb t h]
    obtain ⟨hcnt, hth, hto⟩ := on_failure_fields cb t
    rcases ts with _ | ⟨t', ts'⟩
    · -- a single failure reaches the threshold
      have hopen : (cb.on_failure t).state = .OPEN := by
        apply on_failure_state_open
        simp only [List.length_cons, List.length_nil] at heq
        omega
      simp only [failRun, hstep]
      exact hopen
    · have hlt1 : cb.failure_count + 1 < cb.failure_threshold := by
        simp only [List.length_cons] at heq; omega
      have hstate : (cb.on_failure t).state = .CLOSED :=
        on_failure_state_closed cb t h hlt1
      have heq' : (cb.on_failure t).failure_count + (t' :: ts').length =
          (cb.on_failure t).failure_threshold := by
        rw [hcnt, hth]
        simp only [List.length_cons] at heq ⊢
        omega
      have := ih (cb.on_failure t) hstate (by simp) heq'
      simp only [failRun, hstep]
      exact this

/-- C1: starting from a fresh breaker, `failure_threshold` consecutive
failing calls leave the state `OPEN`; an `OPEN` breaker within the
recovery window rejects the call without invoking the operation and is
left unchanged; past the window the operation is invoked exactly once
and a success closes the circuit with `failure_count = 0`. -/
theorem C1_circuit_breaker_state_machine
    (threshold : Nat) (timeout : Int) (ts : List Int)
    (hth : 1 ≤ threshold) (hlen : ts.length = threshold)
    (cb : CircuitBreaker) (now : Int) (b : Bool) :
    (failRun (CircuitBreaker.init threshold timeout) ts).state = .OPEN
    ∧ (cb.state = .OPEN →
        now - (cb.last_failure_time.getD 0) ≤ cb.recovery_timeout →
        cb.call now b = (.circuitOpen, cb, 0))
    ∧ (cb.state = .OPEN →
        cb.recovery_timeout < now - (cb.last_failure_time.getD 0) →
        (cb.call now b).2.2 = 1
        ∧ (b = true →
            (cb.call now b).1 = .success
            ∧ (cb.call now b).2.1.state = .CLOSED
            ∧ (cb.call now b).2.1.failure_count = 0)) := by
  refine ⟨?_, ?_, ?_⟩
  · have hne : ts ≠ [] := by
      intro hnil; rw [hnil] at hlen; simp at hlen; omega
    exact failRun_opens ts (CircuitBreaker.init threshold timeout) rfl hne
      (by simp [CircuitBreaker.init, hlen])
  · intro hopen hle
    simp only [CircuitBreaker.call, hopen, if_pos]
    rw [if_neg (by omega)]
  · intro hopen hgt
    constructor
    · simp only [CircuitBreaker.call, hopen, if_pos]
      rw [if_pos hgt]
      rcases b with _ | _ <;> simp
    · intro hb
      subst hb
      simp only [CircuitBreaker.call, hopen, if_pos]
      rw [if_pos hgt]
      simp [CircuitBreaker.on_success]

/-- C1 witness (Scenario A with threshold 3): three failing calls open
the breaker; a fourth call inside the window is rejected with the
operation not invoked; a later successful call closes the breaker and
resets the failure count. -/
theorem C1_circuit_breaker_state_machine_witness :
    (1 ≤ 3 ∧ ([(0 : Int), 0, 0]).length = 3)
    ∧ (failRun (CircuitBreaker.init 3 60) [(0 : Int), 0, 0]).state = .OPEN
    ∧ ((failRun (CircuitBreaker.init 3 60) [(0 : Int), 0, 0]).call 10 false
        = (.circuitOpen, failRun (CircuitBreaker.init 3 60) [(0 : Int), 0, 0], 0))
    ∧ (((failRun (CircuitBreaker.init 3 60) [(0 : Int), 0, 0]).call 100 true).1 = .success
        ∧ ((failRun (CircuitBreaker.init 3 60) [(0 : Int), 0, 0]).call 100 true).2.1.state = .CLOSED
        ∧ ((failRun (CircuitBreaker.init 3 60) [(0 : Int), 0, 0]).call 100 true).2.1.failure_count = 0) := by
  have hmain := C1_circuit_breaker_state_machine 3 60 [(0 : Int), 0, 0]
    (by decide) (by decide)
    (failRun (CircuitBreaker.init 3 60) [(0 : Int), 0, 0]) 10 false
  have hopen := hmain.1
  have hrej := hmain.2.1 hopen (by decide)
  have hmain' := C1_circuit_breaker_state_machine 3 60 [(0 : Int), 0, 0]
    (by decide) (by decide)
    (failRun (CircuitBreaker.init 3 60) [(0 : Int), 0, 0]) 100 true
  have hrec := (hmain'.2.2 hopen (by decide)).2 rfl
  exact ⟨⟨by decide, by decide⟩, hopen, hrej, hrec⟩

/-! ## `retry_on_failure` (edge_case_middleware.py lines 585-619) -/

/-- Embedding of the loop body of the `retry_on_failure` decorator's
`wrapper` (lines 597-616), indexed by the current `attempt`.  The
source's guard `attempt < max_retries` is carried as the structurally
decreasing count `remaining = max_retries - attempt` of retries still
allowed.  The wrapped function is abstracted as `op : Nat → Except E A`
giving the outcome of each attempt (`.error` models an exception from
the caught tuple).  Returns the final outcome, the number of invocations
of `op`, and the list of computed sleep delays in order. -/
def retryGo (op : Nat → Except E A) (delay backoff : Int) :
    (attempt : Nat) → (remaining : Nat) → Except E A × Nat × List Int
  | attempt, 0 =>
    -- attempt == max_retries: final attempt, no further sleep or retry
    (match op attempt with
     | .ok a => (.ok a, 1, [])
     | .error e => (.error e, 1, []))
  | attempt, r + 1 =>
    (match op attempt with
     | .ok a => (.ok a, 1, [])
     | .error _ =>
       let current_delay := delay * backoff ^ attempt
       let rest := retryGo op delay backoff (attempt + 1) r
       (rest.1, rest.2.1 + 1, current_delay :: rest.2.2))

/-- The decorator `retry_on_failure(max_retries, delay, backoff_factor)` applied to an
operation: the loop starts at attempt 0 with `max_retries` retries
allowed. -/
def retry_on_failure (op : Nat → Except E A) (max_retries : Nat)
    (delay backoff : Int) : Except E A × Nat × List Int :=
  retryGo op delay backoff 0 max_retries

lemma retryGo_master (op : Nat → Except E A) (delay backoff : Int) (errs : Nat → E) :
    ∀ remaining attempt,
      1 ≤ (retryGo op delay backoff attempt remaining).2.1
      ∧ (retryGo op delay backoff attempt remaining).2.1 ≤ remaining + 1
      ∧ (retryGo op delay backoff attempt remaining).2.2 =
          (List.range (retryGo op delay backoff attempt remaining).2.2.length).map
            (fun j => delay * backoff ^ (attempt + j))
      ∧ ((∀ k, attempt ≤ k → k ≤ attempt + remaining → op k = .error (errs k)) →
          (retryGo op delay backoff attempt remaining).1 =
            .error (errs (attempt + remaining))) := by
  intro remaining
  induction remaining with
  | zero =>
    intro attempt
    rcases hop : op attempt with e | a
    · -- final attempt raised: error of the last attempt is re-raised
      simp only [retryGo, hop]
      refine ⟨le_refl 1, by omega, by simp, ?_⟩
      intro hall
      have h := hall attempt (le_refl _) (by omega)
      rw [hop] at h
      simpa using h
    · simp only [retryGo, hop]
      refine ⟨le_refl 1, by omega, by simp, ?_⟩
      intro hall
      have h := hall attempt (le_refl _) (by omega)
      rw [hop] at h
      exact absurd h (by simp)
  | succ r ih =>
    intro attempt
    rcases hop : op attempt with e | a
    · obtain ⟨ih1, ih2, ih3, ih4⟩ := ih (attempt + 1)
      simp only [retryGo, hop]
      refine ⟨by omega, by omega, ?_, ?_⟩
      · rw [List.length_cons, List.range_succ_eq_map, List.map_cons]
        congr 1
        rw [ih3, List.map_map]
        simp only [List.length_map, List.length_range]
        apply List.map_congr_left
        intro j _
        simp only [Function.comp_apply]
        congr 2
        omega
      · intro hall
        have h := ih4 (fun k hk1 hk2 => hall k (by omega) (by omega))
        rw [h]
        congr 2
        omega
    · simp only [retryGo, hop]
      refine ⟨le_refl 1, by omega, by simp, ?_⟩
      intro hall
      have h := hall attempt (le_refl _) (by omega)
      rw [hop] at h
      exact absurd h (by simp)

/-- C6: the wrapped operation is invoked at most `max_retries + 1` times;
the sleep before the `(i+1)`-th retry is `delay * backoff ^ i`; and when
every attempt fails, the error of the last attempt is the one propagated. -/
theorem C6_retry_policy (op : Nat → Except E A) (max_retries : Nat)
    (delay backoff : Int) (errs : Nat → E) :
    (retry_on_failure op max_retries delay backoff).2.1 ≤ max_retries + 1
    ∧ (∀ i, (hi : i < (retry_on_failure op max_retries delay backoff).2.2.length) →
        (retry_on_failure op max_retries delay backoff).2.2.get ⟨i, hi⟩ =
          delay * backoff ^ i)
    ∧ ((∀ k, k ≤ max_retries → op k = .error (errs k)) →
        (retry_on_failure op max_retries delay backoff).1 =
          .error (errs max_retries)) := by
  obtain ⟨h1, h2, h3, h4⟩ := retryGo_master op delay backoff errs max_retries 0
  refine ⟨h2, ?_,
    fun hall => by simpa using h4 (fun k _ hk2 => hall k (by omega))⟩
  intro i hi
  simp only [retry_on_failure] at hi ⊢
  rw [List.get_eq_getElem]
  have hopt : (retryGo op delay backoff 0 max_retries).2.2[i]? =
      some (delay * backoff ^ i) := by
    conv_lhs => rw [h3]
    rw [List.getElem?_map, List.getElem?_range (by simpa using hi)]
    simp
  have hsome : (retryGo op delay backoff 0 max_retries).2.2[i]? =
      some ((retryGo op delay backoff 0 max_retries).2.2[i]) :=
    List.getElem?_eq_getElem hi
  rw [hopt] at hsome
  exact (Option.some.inj hsome).symm

/-- C6 witness: with an always-failing operation, `max_retries = 2`,
`delay = 1`, `backoff = 2`, there are 3 invocations, the second sleep is
`1 * 2 ^ 1 = 2`, and the propagated error is the last attempt's; the
unconditional invocation bound also holds for an operation that
succeeds on its second attempt (2 invocations). -/
theorem C6_retry_policy_witness :
    (retry_on_failure (fun k => (.error k : Except Nat Nat)) 2 1 2).2.1 ≤ 3
    ∧ (retry_on_failure (fun k => (.error k : Except Nat Nat)) 2 1 2).2.2.get
        ⟨1, by decide⟩ = 2
    ∧ (retry_on_failure (fun k => (.error k : Except Nat Nat)) 2 1 2).1 = .error 2
    ∧ (retry_on_failure
        (fun k => if k = 1 then (.ok 7 : Except Nat Nat) else .error k) 2 1 2).2.1 ≤ 3
    ∧ (retry_on_failure
        (fun k => if k = 1 then (.ok 7 : Except Nat Nat) else .error k) 2 1 2).2.1 = 2 := by
  have h := C6_retry_policy (fun k => (.error k : Except Nat Nat)) 2 1 2 (fun k => k)
  have h2 := C6_retry_policy
    (fun k => if k = 1 then (.ok 7 : Except Nat Nat) else .error k) 2 1 2 (fun k => k)
  exact ⟨h.1, h.2.1 1 (by decide), h.2.2 (fun k _ => rfl), h2.1, by decide⟩

/-! ## `RetryMiddleware` (edge_case_middleware.py lines 431-492) -/

/-- The exception taxonomy visible to the middleware's `isinstance`
dispatch.  `operationalError` is a subclass of `DatabaseError`;
`reqTimeout`, `reqConnectionError` and `reqOther` are the
`requests.RequestException` family. -/
inductive ExcKind
  | databaseError
  | operationalError
  | validationError
  | permissionDenied
  | http404
  | reqTimeout
  | reqConnectionError
  | reqOther
  | redisError
  | generic
deriving DecidableEq, Repr

/-- An exception value: its kind and an optional `status_code` attribute. -/
structure Exc where
  kind : ExcKind
  status_code : Option Nat
deriving DecidableEq, Repr

/-- Retry bookkeeping attached to the request by
`RetryMiddleware.process_request` (lines 438-443). -/
structure RetryContext where
  retry_count : Nat
  max_retries : Nat
  retry_delay : Int
  backoff_factor : Int
deriving DecidableEq, Repr

/-- Embedding of `RetryMiddleware._should_retry` (lines 470-492). -/
def should_retry (method : String) (e : Exc) : Bool :=
  if ¬ (method = "GET" ∨ method = "POST" ∨ method = "PUT" ∨ method = "PATCH") then
    false
  else if e.kind = .validationError ∨ e.kind = .permissionDenied ∨ e.kind = .http404 then
    false
  else
    match e.status_code with
    | some c => ¬ (c = 400 ∨ c = 401 ∨ c = 403 ∨ c = 404 ∨ c = 422)
    | none => true

/-- Embedding of `RetryMiddleware.process_exception` (lines 445-468).
Returns the value handed back to Django (always `None` in the source,
hence `Option JsonResp`-shaped as `Option Unit` here), the updated retry
context, and the sleep performed, if any. -/
def RetryMiddleware.process_exception (method : String) (ctx : RetryContext)
    (e : Exc) : Option Unit × RetryContext × Option Int :=
  if ¬ should_retry method e then
    (none, ctx, none)
  else
    let ctx' := { ctx with retry_count := ctx.retry_count + 1 }
    if ctx'.retry_count ≤ ctx'.max_retries then
      let d := ctx'.retry_delay * ctx'.backoff_factor ^ (ctx'.retry_count - 1)
      (none, ctx', some d)
    else
      (none, ctx', none)

/-- C10: `RetryMiddleware.process_exception` always returns `None` (the
exception keeps propagating); its only effects are incrementing
`retry_count` exactly when the retryability predicate holds, and sleeping
`retry_delay * backoff_factor ^ (retry_count' - 1)` exactly when the
predicate holds and the incremented count is within `max_retries`. -/
theorem C10_retry_middleware_passthrough (method : String) (ctx : RetryContext)
    (e : Exc) :
    (RetryMiddleware.process_exception method ctx e).1 = none
    ∧ (RetryMiddleware.process_exception method ctx e).2.1 =
        { ctx with retry_count :=
            ctx.retry_count + (if should_retry method e then 1 else 0) }
    ∧ (RetryMiddleware.process_exception method ctx e).2.2 =
        (if should_retry method e ∧ ctx.retry_count + 1 ≤ ctx.max_retries then
          some (ctx.retry_delay * ctx.backoff_factor ^ ctx.retry_count)
        else none) := by
  by_cases hr : should_retry method e
  · by_cases hc : ctx.retry_count + 1 ≤ ctx.max_retries
    · simp [RetryMiddleware.process_exception, hr, hc]
    · simp [RetryMiddleware.process_exception, hr, hc]
  · simp [RetryMiddleware.process_exception, hr]

/-! ## `EdgeCaseHandlingMiddleware` (edge_case_middleware.py lines 83-428) -/

/-- Projection of a `JsonResponse` onto the error-envelope fields the
middleware populates.  `error_id` holds a uuid modelled as a `Nat`
(see `freshUuid`); fields absent from a given response are `none`. -/
structure JsonResp where
  status : Nat
  error : String
  message : String
  error_id : Option Nat
  code : Option String
deriving DecidableEq, Repr

/-- The uuid supply: uuids are modelled as naturals drawn from a counter,
so a uuid drawn later is distinct from every uuid drawn earlier. -/
def freshUuid (g : Nat) : Nat × Nat := (g, g + 1)

/-- Request attributes the edge-case middleware reads.
`request_id` is the uuid set by `process_request`. -/
structure Req where
  request_id : Nat
  path : String
  method : String
deriving DecidableEq, Repr

/-- Whether `needle` is a leading run of `hay` (character lists). -/
def startsWithChars : (needle hay : List Char) → Bool
  | [], _ => true
  | _ :: _, [] => false
  | a :: as, b :: bs => (a == b) && startsWithChars as bs

/-- Whether `needle` occurs as a contiguous run of `hay`. -/
def containsChars (needle : List Char) : (hay : List Char) → Bool
  | [] => needle.isEmpty
  | b :: bs => startsWithChars needle (b :: bs) || containsChars needle bs

/-- ASCII lower-casing of a character (`str.lower()` restricted to the
ASCII range URL paths use). -/
def charLowerAscii (c : Char) : Char :=
  if 65 ≤ c.toNat ∧ c.toNat ≤ 90 then Char.ofNat (c.toNat + 32) else c

/-- Python's `needle in hay.lower()` on strings, as used by
`_get_service_name_from_request`. -/
def containsSub (needle hay : String) : Bool :=
  containsChars needle.toList (hay.toList.map charLowerAscii)

/-- Embedding of `_get_service_name_from_request` (lines 402-410). -/
def get_service_name_from_request (path : String) : Option String :=
  if containsSub "openai" path then some "openai"
  else if containsSub "email" path then some "email"
  else if containsSub "sms" path then some "sms"
  else none

/-- Embedding of `_get_circuit_breaker` (lines 412-419): the per-service
registry `self.circuit_breakers` is an association list; a missing entry
is created with `failure_threshold=5, recovery_timeout=60`. -/
def get_circuit_breaker (mw : List (String × CircuitBreaker)) (name : String) :
    CircuitBreaker × List (String × CircuitBreaker) :=
  match mw.lookup name with
  | some cb => (cb, mw)
  | none =>
    let cb := CircuitBreaker.init 5 60
    (cb, mw ++ [(name, cb)])

/-- Embedding of `_create_health_check_response` (lines 178-185): note
the `error_id` field is populated from `request.request_id`. -/
def create_health_check_response (req : Req) : JsonResp :=
  { status := 503
    error := "Service temporarily unavailable"
    message := "The service is currently experiencing issues. Please try again later."
    error_id := some req.request_id
    code := some "SERVICE_UNAVAILABLE" }

/-- Test `isinstance(e, DatabaseError)`: `OperationalError` is a subclass. -/
def isDatabaseError (e : Exc) : Bool :=
  e.kind = .databaseError ∨ e.kind = .operationalError

/-- Test `isinstance(e, RequestException)`: `Timeout` and `ConnectionError`
are subclasses. -/
def isRequestException (e : Exc) : Bool :=
  e.kind = .reqTimeout ∨ e.kind = .reqConnectionError ∨ e.kind = .reqOther

/-- Embedding of `_handle_database_error` (lines 221-249). -/
def handle_database_error (debug : Bool) (e : Exc) (error_id : Nat) : JsonResp :=
  if debug then
    { status := 500, error := "Database error"
      message := "", error_id := some error_id, code := none }
  else
    { status := 500, error := "Database error"
      message := "A database error occurred. Please try again later."
      error_id := some error_id, code := some "DATABASE_ERROR" }

/-- Embedding of `_handle_validation_error` (lines 251-269). -/
def handle_validation_error (error_id : Nat) : JsonResp :=
  { status := 400, error := "Validation error"
    message := "The provided data is invalid."
    error_id := some error_id, code := some "VALIDATION_ERROR" }

/-- Embedding of `_handle_permission_error` (lines 271-280). -/
def handle_permission_error (error_id : Nat) : JsonResp :=
  { status := 403, error := "Permission denied"
    message := "You do not have permission to perform this action."
    error_id := some error_id, code := some "PERMISSION_DENIED" }

/-- Embedding of `_handle_not_found_error` (lines 282-291). -/
def handle_not_found_error (error_id : Nat) : JsonResp :=
  { status := 404, error := "Resource not found"
    message := "The requested resource was not found."
    error_id := some error_id, code := some "NOT_FOUND" }

/-- Embedding of `_handle_external_api_error` (lines 293-325): the
circuit breaker of the service named in the path is fetched (created if
absent) and its state is read; it is never updated with the failure. -/
def handle_external_api_error (mw : List (String × CircuitBreaker)) (req : Req)
    (e : Exc) (error_id : Nat) : JsonResp × List (String × CircuitBreaker) :=
  let fallback : JsonResp :=
    if e.kind = .reqTimeout then
      { status := 502, error := "External service error"
        message := "External service request timed out."
        error_id := some error_id, code := some "EXTERNAL_SERVICE_TIMEOUT" }
    else if e.kind = .reqConnectionError then
      { status := 502, error := "External service error"
        message := "Unable to connect to external service."
        error_id := some error_id, code := some "EXTERNAL_SERVICE_CONNECTION_ERROR" }
    else
      { status := 502, error := "External service error"
        message := "External service error occurred."
        error_id := some error_id, code := some "EXTERNAL_SERVICE_ERROR" }
  match get_service_name_from_request req.path with
  | some name =>
    let (cb, mw') := get_circuit_breaker mw name
    if cb.state = .OPEN then
      ({ status := 503, error := "External service unavailable"
         message := "External service is temporarily unavailable."
         error_id := some error_id, code := some "EXTERNAL_SERVICE_UNAVAILABLE" }, mw')
    else
      (fallback, mw')
  | none => (fallback, mw)

/-- Embedding of `_handle_generic_error` (lines 342-360). -/
def handle_generic_error (debug : Bool) (error_id : Nat) : JsonResp :=
  if debug then
    { status := 500, error := "Internal server error"
      message := "", error_id := some error_id, code := none }
  else
    { status := 500, error := "Internal server error"
      message := "An unexpected error occurred. Please try again later."
      error_id := some error_id, code := some "INTERNAL_ERROR" }

/-- Embedding of `EdgeCaseHandlingMiddleware.process_exception`
(lines 140-161): a fresh uuid is drawn for `error_id`, then the
exception is dispatched by `isinstance` in source order.  The cache
branch returns `None` (the request continues without cache). -/
def EdgeMW.process_exception (mw : List (String × CircuitBreaker)) (req : Req)
    (e : Exc) (debug : Bool) (g : Nat) :
    Option JsonResp × List (String × CircuitBreaker) × Nat :=
  let (error_id, g') := freshUuid g
  if isDatabaseError e then (some (handle_database_error debug e error_id), mw, g')
  else if e.kind = .validationError then (some (handle_validation_error error_id), mw, g')
  else if e.kind = .permissionDenied then (some (handle_permission_error error_id), mw, g')
  else if e.kind = .http404 then (some (handle_not_found_error error_id), mw, g')
  else if isRequestException e then
    let (resp, mw') := handle_external_api_error mw req e error_id
    (some resp, mw', g')
  else if e.kind = .redisError then (none, mw, g')
  else (some (handle_generic_error debug error_id), mw, g')

/-- One request of Scenario C: `process_exception` with a `Timeout` on
the openai path, iterated over the middleware's breaker registry. -/
def scenarioC_step (mw : List (String × CircuitBreaker)) (g : Nat) :
    Option JsonResp × List (String × CircuitBreaker) × Nat :=
  EdgeMW.process_exception mw
    { request_id := 0, path := "/api/v1/chatbot/openai/", method := "GET" }
    { kind := .reqTimeout, status_code := none } false g

/-- The breaker registry and uuid supply after `n` Scenario C requests. -/
def scenarioC_state : Nat → List (String × CircuitBreaker) × Nat
  | 0 => ([], 1)
  | n + 1 =>
    let s := scenarioC_state n
    let r := scenarioC_step s.1 s.2
    (r.2.1, r.2.2)

/-- C2 evaluated at the failing input (Scenario C): after 5 consecutive
`Timeout` errors on `/api/v1/chatbot/openai/`, the 6th request is still
answered 502 `EXTERNAL_SERVICE_TIMEOUT`, not 503
`EXTERNAL_SERVICE_UNAVAILABLE`, because `_handle_external_api_error`
only reads the breaker's state and nothing ever records the failures, so
the `openai` breaker is still CLOSED with `failure_count = 0`. -/
theorem C2_sixth_timeout_is_502_not_503 :
    ((scenarioC_step (scenarioC_state 5).1 (scenarioC_state 5).2).1 =
      some { status := 502, error := "External service error"
             message := "External service request timed out."
             error_id := some 6, code := some "EXTERNAL_SERVICE_TIMEOUT" })
    ∧ ((scenarioC_state 5).1.lookup "openai" = some (CircuitBreaker.init 5 60))
    ∧ (CircuitBreaker.init 5 60).state = .CLOSED
    ∧ (CircuitBreaker.init 5 60).failure_count = 0 := by
  refine ⟨?_, ?_, rfl, rfl⟩ <;> decide

lemma handle_database_error_error_id (debug : Bool) (e : Exc) (eid : Nat) :
    (handle_database_error debug e eid).error_id = some eid := by
  unfold handle_database_error; split <;> rfl

lemma handle_generic_error_error_id (debug : Bool) (eid : Nat) :
    (handle_generic_error debug eid).error_id = some eid := by
  unfold handle_generic_error; split <;> rfl

lemma handle_external_api_error_error_id (mw : List (String × CircuitBreaker))
    (req : Req) (e : Exc) (eid : Nat) :
    (handle_external_api_error mw req e eid).1.error_id = some eid := by
  unfold handle_external_api_error
  rcases get_service_name_from_request req.path with _ | name <;>
    simp only [] <;> split <;> try split
  all_goals first | rfl | (split <;> rfl)

/-- A concrete request used to exhibit the health-gate response's
`error_id`. -/
def req7 : Req :=
  { request_id := 7, path := "/api/v1/chatbot/conversations/", method := "GET" }

/-- C5 counterexample: the health-gate 503 response's `error_id` is not
freshly generated — it is exactly the request's `request_id`
(`_create_health_check_response` populates `error_id` from
`request.request_id`). -/
theorem C5_counterexample_health_error_id_is_request_id :
    (create_health_check_response req7).error_id = some req7.request_id
    ∧ ¬ (create_health_check_response req7).error_id ≠ some req7.request_id := by
  exact ⟨rfl, fun h => h rfl⟩

/-- C5 amended: every exception-mapped response from `process_exception`
carries `error_id = some g`, the uuid freshly drawn from the supply, and
when the request id was drawn earlier from the same supply
(`request_id < g`) that error id differs from the request id; the
health-gate 503 response instead reuses the request id as its error id. -/
theorem C5_error_id_amended (mw : List (String × CircuitBreaker)) (req : Req)
    (e : Exc) (debug : Bool) (g : Nat) (hg : req.request_id < g) :
    (∀ r, (EdgeMW.process_exception mw req e debug g).1 = some r →
      r.error_id = some g ∧ r.error_id ≠ some req.request_id)
    ∧ (create_health_check_response req).error_id = some req.request_id := by
  refine ⟨?_, rfl⟩
  intro r hr
  have hid : r.error_id = some g := by
    unfold EdgeMW.process_exception freshUuid at hr
    simp only [] at hr
    split at hr
    · rw [← Option.some.inj hr]
      exact handle_database_error_error_id debug e g
    · split at hr
      · exact (Option.some.inj hr) ▸ rfl
      · split at hr
        · exact (Option.some.inj hr) ▸ rfl
        · split at hr
          · exact (Option.some.inj hr) ▸ rfl
          · split at hr
            · have := handle_external_api_error_error_id mw req e g
              have hr' := Option.some.inj hr
              rw [← hr']
              exact this
            · split at hr
              · exact absurd hr (by simp)
              · rw [← Option.some.inj hr]
                exact handle_generic_error_error_id debug g
  refine ⟨hid, ?_⟩
  rw [hid]
  intro hcontra
  have := Option.some.inj hcontra
  omega

/-- C5 witness: a concrete run where the request id 0 was drawn before
the error id; the validation-error response carries error id 1 ≠ 0,
while the health response for the same request carries error id 0. -/
theorem C5_error_id_amended_witness :
    ((0 : Nat) < 1)
    ∧ ((EdgeMW.process_exception []
          { request_id := 0, path := "/api/v1/x", method := "POST" }
          { kind := .validationError, status_code := none } false 1).1 =
        some (handle_validation_error 1))
    ∧ (handle_validation_error 1).error_id = some 1
    ∧ (handle_validation_error 1).error_id ≠
        some ({ request_id := 0, path := "/api/v1/x", method := "POST" } : Req).request_id
    ∧ (create_health_check_response
        { request_id := 0, path := "/api/v1/x", method := "POST" }).error_id = some 0 := by
  have h := C5_error_id_amended []
    { request_id := 0, path := "/api/v1/x", method := "POST" }
    { kind := .validationError, status_code := none } false 1 (by decide)
  refine ⟨by decide, by decide, ?_, ?_, h.2⟩
  · exact (h.1 (handle_validation_error 1) (by decide)).1
  · exact (h.1 (handle_validation_error 1) (by decide)).2

/-! ## `UserSession` (users/models.py lines 207-265) and
`SessionManagementMiddleware` (users/middleware.py lines 36-351) -/

/-- Embedding of the `UserSession` model row.  `id` is the database
primary key; times are `Int` timestamps. -/
structure UserSession where
  id : Nat
  user : Nat
  session_key : String
  ip_address : String
  user_agent : String
  device_type : String
  browser : String
  operating_system : String
  started_at : Int
  last_activity : Int
  ended_at : Option Int
  is_active : Bool
  page_views : Nat
  chat_interactions : Nat
deriving DecidableEq, Repr

/-- Embedding of `UserSession.end_session` (models.py lines 251-255):
unconditionally sets `is_active = False` and `ended_at = timezone.now()`. -/
def UserSession.end_session (s : UserSession) (now : Int) : UserSession :=
  { s with is_active := false, ended_at := some now }

/-- The classification flags `user_agents.parse` exposes on a parsed
user-agent (external library; its flags are inputs of the model). -/
structure UAInfo where
  is_mobile : Bool
  is_tablet : Bool
  is_pc : Bool
  browser_family : String
  os_family : String
deriving DecidableEq, Repr

/-- Embedding of `_get_device_type` (middleware.py lines 189-198): note
the checks run in the order mobile, tablet, pc. -/
def get_device_type (ua : UAInfo) : String :=
  if ua.is_mobile then "mobile"
  else if ua.is_tablet then "tablet"
  else if ua.is_pc then "desktop"
  else "unknown"

/-- The device-class precedence the spec describes
(tablet > mobile > desktop > unknown), written from the spec's words for
comparison with `get_device_type`. -/
def device_type_spec_order (ua : UAInfo) : String :=
  if ua.is_tablet then "tablet"
  else if ua.is_mobile then "mobile"
  else if ua.is_pc then "desktop"
  else "unknown"

/-- Request attributes the session middleware reads, plus fault-injection
flags: `raise_in_x = true` models an exception occurring inside the
`try` body of the corresponding source method. -/
structure SecRequest where
  authenticated : Bool
  user_id : Nat
  session_key : String
  ip : String
  user_agent : String
  ua_info : UAInfo
  path : String
  request_rate : Nat
  raise_in_get_or_create : Bool
  raise_in_create : Bool
  raise_in_consistency : Bool
  raise_in_suspicious : Bool
  raise_in_validate : Bool
  raise_in_concurrent : Bool
  raise_in_activity : Bool
deriving Repr

/-- Embedding of `_should_skip_session_management` (lines 87-97);
`request.path.startswith(p)` is the character-prefix test. -/
def should_skip_session_management (path : String) : Bool :=
  ["/static/", "/media/", "/health/", "/admin/jsi18n/", "/favicon.ico"].any
    (fun p => startsWithChars p.toList path.toList)

/-- Embedding of `_create_new_user_session` (lines 159-187): a fresh row
with `is_active=True` and counters at their defaults; `newId` is the
primary key assigned by the database and `now` the row timestamps.
On an exception inside the `try`, returns `None`. -/
def create_new_user_session (req : SecRequest) (newId : Nat) (now : Int) :
    Option UserSession :=
  if req.raise_in_create then none
  else some
    { id := newId
      user := req.user_id
      session_key := req.session_key
      ip_address := req.ip
      user_agent := req.user_agent
      device_type := get_device_type req.ua_info
      browser := req.ua_info.browser_family
      operating_system := req.ua_info.os_family
      started_at := now
      last_activity := now
      ended_at := none
      is_active := true
      page_views := 0
      chat_interactions := 0 }

/-- The `UserSession.objects.filter(user=.., is_active=True,
session_key=..).first()` lookup of `_get_or_create_user_session`. -/
def findActiveSession (store : List UserSession) (req : SecRequest) :
    Option UserSession :=
  store.find? (fun s =>
    s.user == req.user_id && s.is_active && s.session_key == req.session_key)

/-- Replace the row with the given id in the store. -/
def storeUpdate (store : List UserSession) (sid : Nat) (s' : UserSession) :
    List UserSession :=
  store.map (fun t => if t.id == sid then s' else t)

/-- Embedding of `_get_or_create_user_session` (lines 136-157): refresh
`last_activity` of the matching active session, or create a new row.
Any exception inside the `try` is caught and `None` returned. -/
def get_or_create_user_session (req : SecRequest) (store : List UserSession)
    (now : Int) (newId : Nat) : Option UserSession × List UserSession :=
  if req.raise_in_get_or_create then (none, store)
  else
    match findActiveSession store req with
    | some s =>
      let s' := { s with last_activity := now }
      (some s', storeUpdate store s.id s')
    | none =>
      match create_new_user_session req newId now with
      | some s => (some s, store ++ [s])
      | none => (none, store)

/-- Embedding of `_handle_authenticated_session` (lines 99-116): sets
`request.user_session` (possibly to `None`); errors are logged and
swallowed.  The first component is the `user_session` attribute:
`none` = attribute is set to Python `None`. -/
def handle_authenticated_session (req : SecRequest) (store : List UserSession)
    (now : Int) (newId : Nat) : Option UserSession × List UserSession :=
  get_or_create_user_session req store now newId

/-- Embedding of `_check_session_consistency` (lines 245-268): an IP
mismatch is only logged; a user-agent mismatch fails the check; an
exception inside the `try` is caught and the check fails. -/
def check_session_consistency (req : SecRequest)
    (user_session : Option UserSession) : Bool :=
  if req.raise_in_consistency then false
  else
    match user_session with
    | none => true
    | some s =>
      -- `s.ip_address ≠ req.ip` is logged only, it does not fail the check
      if s.user_agent ≠ req.user_agent then false else true

/-- Embedding of `_detect_suspicious_activity` (lines 270-290): the rate
counter is read from the cache; an exception inside the `try` is caught
and `False` (not suspicious) returned. -/
def detect_suspicious_activity (req : SecRequest) : Bool :=
  if req.raise_in_suspicious then false
  else decide (req.request_rate > 100)

/-- Embedding of `_validate_session_security` (lines 223-243):
anonymous requests pass; an exception inside the outer `try` is caught
and the validation fails. -/
def validate_session_security (req : SecRequest)
    (user_session : Option UserSession) : Bool :=
  if ¬ req.authenticated then true
  else if req.raise_in_validate then false
  else if ¬ check_session_consistency req user_session then false
  else if detect_suspicious_activity req then false
  else true

/-- Active sessions of a user, as counted by
`UserSession.objects.filter(user=.., is_active=True).count()`. -/
def activeCount (store : List UserSession) (u : Nat) : Nat :=
  (store.filter (fun s => s.user == u && s.is_active)).length

/-- One step of scanning for the row with minimal `last_activity`. -/
def minStep (acc : Option UserSession) (s : UserSession) : Option UserSession :=
  match acc with
  | none => some s
  | some b => if s.last_activity < b.last_activity then some s else acc

/-- Django's `order_by('last_activity').first()` over the user's active sessions:
the first row attaining the minimal `last_activity`. -/
def oldestActive (store : List UserSession) (u : Nat) : Option UserSession :=
  (store.filter (fun s => s.user == u && s.is_active)).foldl minStep none

/-- End the row with the given id in the store (the database effect of
`oldest_session.end_session()`). -/
def endInStore (store : List UserSession) (sid : Nat) (now : Int) :
    List UserSession :=
  store.map (fun t => if t.id == sid then t.end_session now else t)

/-- Embedding of `_check_concurrent_sessions` (lines 292-320): when the
active count reaches the limit the oldest active session is ended; the
function returns `True` in every branch, including the `except` one. -/
def check_concurrent_sessions (req : SecRequest) (store : List UserSession)
    (limit : Nat) (now : Int) : Bool × List UserSession :=
  if req.raise_in_concurrent then (true, store)
  else if limit ≤ activeCount store req.user_id then
    match oldestActive store req.user_id with
    | some oldest => (true, endInStore store oldest.id now)
    | none => (true, store)
  else (true, store)

/-- Embedding of `_update_session_activity` (lines 208-221): page views
always increment, chat interactions only on chatbot paths; an exception
inside the `try` is caught and the row left as it was. -/
def update_session_activity (req : SecRequest) (s : UserSession) : UserSession :=
  if req.raise_in_activity then s
  else
    { s with
      page_views := s.page_views + 1
      chat_interactions :=
        -- case-sensitive `'/api/v1/chatbot/' in request.path`
        if containsChars "/api/v1/chatbot/".toList req.path.toList then
          s.chat_interactions + 1
        else s.chat_interactions }

/-- The 403 response of `_create_security_violation_response`
(lines 322-334). -/
def securityViolationResp : JsonResp :=
  { status := 403
    error := "Security violation detected"
    message := "Your session has been terminated due to security concerns. Please log in again."
    error_id := none
    code := some "SECURITY_VIOLATION" }

/-- The 429 response of `_create_concurrent_session_response`
(lines 336-342). -/
def concurrentSessionResp : JsonResp :=
  { status := 429
    error := "Too many active sessions"
    message := "You have too many active sessions. Please try again."
    error_id := none
    code := some "CONCURRENT_SESSION_LIMIT" }

/-- Result of `SessionManagementMiddleware.process_request`: the
response returned to Django (if any), the session store after all
side effects, the final `request.user_session` attribute
(`none` = never set, `some none` = set to Python `None`), and whether
the middleware itself crashed (`None.end_session()` inside
`_create_security_violation_response`). -/
structure ProcessResult where
  response : Option JsonResp
  store : List UserSession
  user_session : Option (Option UserSession)
  crashed : Bool
deriving Repr

/-- Embedding of `SessionManagementMiddleware.process_request`
(lines 48-69) together with `_create_security_violation_response`
(lines 322-334): skip check, session resolution (errors swallowed),
security validation (failure → end session, 403), concurrency check
(never blocks). -/
def SessionMW.process_request (req : SecRequest) (store : List UserSession)
    (now : Int) (newId : Nat) (limit : Nat) : ProcessResult :=
  if should_skip_session_management req.path then
    { response := none, store := store, user_session := none, crashed := false }
  else
    let resolved :=
      if req.authenticated then
        let r := handle_authenticated_session req store now newId
        (some r.1, r.2)
      else
        -- `_handle_anonymous_session` only writes an analytics cache entry
        ((none : Option (Option UserSession)), store)
    let attr := resolved.1
    let store1 := resolved.2
    let us := attr.join
    if ¬ validate_session_security req us then
      match attr with
      | some (some s) =>
        { response := some securityViolationResp
          store := endInStore store1 s.id now
          user_session := some (some (s.end_session now))
          crashed := false }
      | some none =>
        -- `request.user_session` is None: `None.end_session()` raises
        { response := none, store := store1, user_session := some none
          crashed := true }
      | none =>
        { response := some securityViolationResp, store := store1
          user_session := none, crashed := false }
    else
      let c := check_concurrent_sessions req store1 limit now
      if ¬ c.1 then
        { response := some concurrentSessionResp, store := c.2
          user_session := attr, crashed := false }
      else
        { response := none, store := c.2, user_session := attr
          crashed := false }

/-- A concrete active session row used by counterexamples and witnesses. -/
def sessA : UserSession :=
  { id := 1, user := 1, session_key := "k1", ip_address := "1.1.1.1"
    user_agent := "UA-A", device_type := "desktop", browser := "Chrome"
    operating_system := "Linux", started_at := 0, last_activity := 0
    ended_at := none, is_active := true, page_views := 0
    chat_interactions := 0 }

/-- C4 counterexample: ending an already-ended session at a later
timestamp overwrites `ended_at`, so the original `ended_at` does not
survive a second `end_session` call. -/
theorem C4_counterexample_ended_at_overwritten :
    ((sessA.end_session 1).end_session 2).ended_at ≠ (sessA.end_session 1).ended_at
    ∧ (sessA.end_session 1).ended_at = some 1
    ∧ ((sessA.end_session 1).end_session 2).ended_at = some 2 := by
  decide

/-- C4 amended: `end_session` on an already-ended session never errors
and leaves the session ended (`is_active = false`), but `ended_at` is
refreshed to the later call's time; it is unchanged exactly when the
second call carries the same timestamp. -/
theorem C4_end_session_idempotent_up_to_timestamp (s : UserSession) (t t' : Int) :
    ((s.end_session t).end_session t').is_active = false
    ∧ ((s.end_session t).end_session t').ended_at = some t'
    ∧ (s.end_session t).end_session t = s.end_session t := by
  exact ⟨rfl, rfl, rfl⟩

/-- A user-agent classified as both mobile and tablet by the parser
(e.g. an iPad running a mobile browser family). -/
def uaBoth : UAInfo :=
  { is_mobile := true, is_tablet := true, is_pc := false
    browser_family := "Opera Mini", os_family := "iOS" }

/-- C9 counterexample: `_get_device_type` checks `is_mobile` before
`is_tablet`, so a user-agent classified as both yields `'mobile'`,
not the `'tablet'` the spec's tablet-first precedence demands. -/
theorem C9_counterexample_mobile_checked_first :
    get_device_type uaBoth = "mobile"
    ∧ device_type_spec_order uaBoth = "tablet"
    ∧ get_device_type uaBoth ≠ device_type_spec_order uaBoth := by
  refine ⟨rfl, rfl, ?_⟩
  decide

/-- C9 amended: the created session's device class follows the
mobile > tablet > desktop > unknown precedence (`is_mobile` is checked
first), and the new session row stores exactly that classification. -/
theorem C9_device_type_mobile_first (req : SecRequest) (newId : Nat) (now : Int)
    (hna : req.raise_in_create = false) :
    (create_new_user_session req newId now).map (fun s => s.device_type)
      = some (get_device_type req.ua_info)
    ∧ (req.ua_info.is_mobile = true → get_device_type req.ua_info = "mobile")
    ∧ (req.ua_info.is_mobile = false → req.ua_info.is_tablet = true →
        get_device_type req.ua_info = "tablet")
    ∧ (req.ua_info.is_mobile = false → req.ua_info.is_tablet = false →
        req.ua_info.is_pc = true → get_device_type req.ua_info = "desktop")
    ∧ (req.ua_info.is_mobile = false → req.ua_info.is_tablet = false →
        req.ua_info.is_pc = false → get_device_type req.ua_info = "unknown") := by
  refine ⟨?_, ?_, ?_, ?_, ?_⟩
  · simp [create_new_user_session, hna]
  · intro h1; simp [get_device_type, h1]
  · intro h1 h2; simp [get_device_type, h1, h2]
  · intro h1 h2 h3; simp [get_device_type, h1, h2, h3]
  · intro h1 h2 h3; simp [get_device_type, h1, h2, h3]

/-- A concrete request shape; variants toggle individual fields. -/
def secReqBase : SecRequest :=
  { authenticated := true, user_id := 1, session_key := "k1"
    ip := "1.1.1.1", user_agent := "UA-A", ua_info := uaBoth
    path := "/api/v1/chatbot/conversations/", request_rate := 0
    raise_in_get_or_create := false, raise_in_create := false
    raise_in_consistency := false, raise_in_suspicious := false
    raise_in_validate := false, raise_in_concurrent := false
    raise_in_activity := false }

/-- C9 witness: evaluated at the tablet-only user-agent, the created
session stores `'tablet'` — and at the mobile-classified one, `'mobile'`. -/
theorem C9_device_type_mobile_first_witness :
    (create_new_user_session
        { secReqBase with
            ua_info := { uaBoth with is_mobile := false } } 9 0).map
      (fun s => s.device_type) = some "tablet"
    ∧ get_device_type { uaBoth with is_mobile := false } = "tablet"
    ∧ get_device_type uaBoth = "mobile" := by
  have h := C9_device_type_mobile_first
    { secReqBase with ua_info := { uaBoth with is_mobile := false } } 9 0 rfl
  have h2 := C9_device_type_mobile_first secReqBase 9 0 rfl
  refine ⟨?_, h.2.2.1 rfl rfl, h2.2.1 rfl⟩
  have := h.1
  rw [this]
  rw [h.2.2.1 rfl rfl]

lemma check_concurrent_fst_true (req : SecRequest) (store : List UserSession)
    (limit : Nat) (now : Int) :
    (check_concurrent_sessions req store limit now).1 = true := by
  unfold check_concurrent_sessions
  split
  · rfl
  · split
    · split <;> rfl
    · rfl

lemma validate_session_security_none (req : SecRequest)
    (h1 : req.raise_in_validate = false) (h2 : req.raise_in_consistency = false)
    (h3 : req.raise_in_suspicious = false) (h4 : req.request_rate ≤ 100) :
    validate_session_security req none = true := by
  unfold validate_session_security check_session_consistency
    detect_suspicious_activity
  by_cases hauth : req.authenticated <;> simp [hauth, h1, h2, h3] <;> omega

lemma validate_session_security_ua_match (req : SecRequest) (s : UserSession)
    (hauth : req.authenticated = true)
    (h1 : req.raise_in_validate = false) (h2 : req.raise_in_consistency = false)
    (h3 : req.raise_in_suspicious = false) (h4 : req.request_rate ≤ 100)
    (hua : s.user_agent = req.user_agent) :
    check_session_consistency req (some s) = true
    ∧ validate_session_security req (some s) = true := by
  have hc : check_session_consistency req (some s) = true := by
    unfold check_session_consistency
    simp [h2, hua]
  refine ⟨hc, ?_⟩
  unfold validate_session_security detect_suspicious_activity
  simp [hauth, h1, h3, hc]
  omega

lemma validate_session_security_ua_mismatch (req : SecRequest) (s : UserSession)
    (hauth : req.authenticated = true) (h1 : req.raise_in_validate = false)
    (h2 : req.raise_in_consistency = false)
    (hua : s.user_agent ≠ req.user_agent) :
    check_session_consistency req (some s) = false
    ∧ validate_session_security req (some s) = false := by
  have hc : check_session_consistency req (some s) = false := by
    unfold check_session_consistency
    simp [h2, hua]
  refine ⟨hc, ?_⟩
  unfold validate_session_security
  simp [hauth, h1, hc]

lemma validate_fails_on_consistency_exc (req : SecRequest)
    (us : Option UserSession) (hauth : req.authenticated = true)
    (hcons : req.raise_in_consistency = true) :
    validate_session_security req us = false := by
  have hc : check_session_consistency req us = false := by
    unfold check_session_consistency
    simp [hcons]
  unfold validate_session_security
  by_cases hv : req.raise_in_validate <;> simp [hauth, hv, hc]

/-- The request of the C3 counterexample: an authenticated request
whose session-consistency check raises internally. -/
def reqC3 : SecRequest := { secReqBase with raise_in_consistency := true }

/-- C3 counterexample: an exception raised inside the security
validation of the session layer is NOT swallowed — the caught error
makes the check return `False` and the request is answered with the 403
`SECURITY_VIOLATION` response instead of proceeding. -/
theorem C3_counterexample_validation_error_fails_closed :
    (SessionMW.process_request reqC3 [] 0 1 5).response = some securityViolationResp
    ∧ securityViolationResp.status = 403
    ∧ reqC3.raise_in_consistency = true
    ∧ (SessionMW.process_request reqC3 [] 0 1 5).crashed = false := by
  refine ⟨by decide, rfl, rfl, by decide⟩

/-- C3 amended: failures inside session lookup/creation, the
concurrent-session check and activity bookkeeping are logged and
swallowed (the request proceeds and no error response is produced), but
a failure inside the security-validation path fails closed: the request
is answered with the 403 security-violation response. -/
theorem C3_session_errors_swallowed_except_security (req : SecRequest)
    (store : List UserSession) (now : Int) (newId limit : Nat) (s : UserSession) :
    (req.authenticated = true →
      should_skip_session_management req.path = false →
      req.raise_in_get_or_create = true →
      req.raise_in_validate = false → req.raise_in_consistency = false →
      req.raise_in_suspicious = false → req.request_rate ≤ 100 →
      (SessionMW.process_request req store now newId limit).response = none
      ∧ (SessionMW.process_request req store now newId limit).crashed = false)
    ∧ (req.raise_in_concurrent = true →
        check_concurrent_sessions req store limit now = (true, store))
    ∧ (req.raise_in_activity = true → update_session_activity req s = s)
    ∧ (req.authenticated = true →
        should_skip_session_management req.path = false →
        req.raise_in_get_or_create = false → req.raise_in_create = false →
        req.raise_in_consistency = true →
        (SessionMW.process_request req store now newId limit).response =
          some securityViolationResp) := by
  refine ⟨?_, ?_, ?_, ?_⟩
  · intro hauth hskip hraise h1 h2 h3 h4
    have hval := validate_session_security_none req h1 h2 h3 h4
    unfold SessionMW.process_request handle_authenticated_session
      get_or_create_user_session
    simp [hskip, hauth, hraise, hval, check_concurrent_fst_true]
  · intro hraise
    unfold check_concurrent_sessions
    simp [hraise]
  · intro hraise
    unfold update_session_activity
    simp [hraise]
  · intro hauth hskip hg hc hcons
    unfold SessionMW.process_request handle_authenticated_session
      get_or_create_user_session create_new_user_session
    rcases hfind : findActiveSession store req with _ | s₀ <;>
      simp [hskip, hauth, hg, hc, hfind,
        validate_fails_on_consistency_exc req _ hauth hcons]

/-- C3 witness: concrete runs — a session-lookup failure is swallowed
(request proceeds, no crash), a concurrency-check failure leaves the
store untouched and allows the request, an activity failure leaves the
row unchanged, and a security-validation failure yields the 403. -/
theorem C3_session_errors_swallowed_except_security_witness :
    ((SessionMW.process_request
        { secReqBase with raise_in_get_or_create := true } [] 0 1 5).response = none
      ∧ (SessionMW.process_request
          { secReqBase with raise_in_get_or_create := true } [] 0 1 5).crashed = false)
    ∧ check_concurrent_sessions
        { secReqBase with raise_in_concurrent := true } [sessA] 5 0 = (true, [sessA])
    ∧ update_session_activity
        { secReqBase with raise_in_activity := true } sessA = sessA
    ∧ (SessionMW.process_request reqC3 [] 0 1 5).response =
        some securityViolationResp := by
  have h1 := C3_session_errors_swallowed_except_security
    { secReqBase with raise_in_get_or_create := true } [] 0 1 5 sessA
  have h2 := C3_session_errors_swallowed_except_security
    { secReqBase with raise_in_concurrent := true } [sessA] 0 1 5 sessA
  have h3 := C3_session_errors_swallowed_except_security
    { secReqBase with raise_in_activity := true } [] 0 1 5 sessA
  have h4 := C3_session_errors_swallowed_except_security reqC3 [] 0 1 5 sessA
  exact ⟨h1.1 rfl (by decide) rfl rfl rfl rfl (by decide),
    h2.2.1 rfl, h3.2.2.1 rfl,
    h4.2.2.2 rfl (by decide) rfl rfl rfl⟩

/-- C7: the security check is asymmetric.  With a resolved session and
no internal failures: a stored-vs-incoming user-agent mismatch fails the
validation and the request is answered 403 with the session ended, while
a matching user-agent passes the validation regardless of the stored IP
(IP drift is only logged), and the request proceeds. -/
theorem C7_security_check_asymmetry (req : SecRequest)
    (store : List UserSession) (now : Int) (newId limit : Nat) (s : UserSession)
    (hauth : req.authenticated = true)
    (hskip : should_skip_session_management req.path = false)
    (hg : req.raise_in_get_or_create = false)
    (hfind : findActiveSession store req = some s)
    (h1 : req.raise_in_validate = false) (h2 : req.raise_in_consistency = false)
    (h3 : req.raise_in_suspicious = false) (h4 : req.request_rate ≤ 100) :
    (s.user_agent ≠ req.user_agent →
      validate_session_security req (some { s with last_activity := now }) = false
      ∧ (SessionMW.process_request req store now newId limit).response =
          some securityViolationResp
      ∧ securityViolationResp.status = 403
      ∧ securityViolationResp.code = some "SECURITY_VIOLATION"
      ∧ (SessionMW.process_request req store now newId limit).user_session =
          some (some (({ s with last_activity := now } : UserSession).end_session now))
      ∧ (({ s with last_activity := now } : UserSession).end_session now).is_active
          = false
      ∧ (({ s with last_activity := now } : UserSession).end_session now).ended_at
          = some now)
    ∧ (s.user_agent = req.user_agent →
      check_session_consistency req (some { s with last_activity := now }) = true
      ∧ validate_session_security req (some { s with last_activity := now }) = true
      ∧ (SessionMW.process_request req store now newId limit).response = none) := by
  constructor
  · intro hne
    have hmm := validate_session_security_ua_mismatch req
      { s with last_activity := now } hauth h1 h2 (by simpa using hne)
    refine ⟨hmm.2, ?_, rfl, rfl, ?_, rfl, rfl⟩ <;>
    · unfold SessionMW.process_request handle_authenticated_session
        get_or_create_user_session
      simp [hskip, hauth, hg, hfind, hmm.2]
  · intro heq
    have hok := validate_session_security_ua_match req
      { s with last_activity := now } hauth h1 h2 h3 h4 (by simpa using heq)
    refine ⟨hok.1, hok.2, ?_⟩
    unfold SessionMW.process_request handle_authenticated_session
      get_or_create_user_session
    simp [hskip, hauth, hg, hfind, hok.2, check_concurrent_fst_true]

/-- C7 witness (Scenario B): stored fingerprint `UA-A` vs incoming
`UA-B` → 403 with the session ended; stored IP `1.1.1.1` vs incoming
`2.2.2.2` with matching fingerprint → validation passes and the request
proceeds. -/
theorem C7_security_check_asymmetry_witness :
    ((SessionMW.process_request { secReqBase with user_agent := "UA-B" }
        [sessA] 5 9 5).response = some securityViolationResp)
    ∧ ((SessionMW.process_request { secReqBase with ip := "2.2.2.2" }
        [sessA] 5 9 5).response = none)
    ∧ sessA.ip_address ≠ ({ secReqBase with ip := "2.2.2.2" } : SecRequest).ip := by
  have hmis := C7_security_check_asymmetry
    { secReqBase with user_agent := "UA-B" } [sessA] 5 9 5 sessA
    rfl (by decide) rfl (by decide) rfl rfl rfl (by decide)
  have hmat := C7_security_check_asymmetry
    { secReqBase with ip := "2.2.2.2" } [sessA] 5 9 5 sessA
    rfl (by decide) rfl (by decide) rfl rfl rfl (by decide)
  exact ⟨(hmis.1 (by decide)).2.1, (hmat.2 (by decide)).2.2, by decide⟩

lemma minStep_isSome (acc : Option UserSession) (s : UserSession) :
    (minStep acc s).isSome = true := by
  cases acc with
  | none => rfl
  | some b =>
    unfold minStep
    split
    · rfl
    · split <;> rfl

lemma foldl_minStep_ne_none (l : List UserSession) :
    ∀ acc : Option UserSession, acc.isSome = true ∨ l ≠ [] →
      (l.foldl minStep acc).isSome = true := by
  induction l with
  | nil =>
    intro acc h
    rcases h with h | h
    · simpa using h
    · exact absurd rfl h
  | cons s t ih =>
    intro acc _
    exact ih (minStep acc s) (Or.inl (minStep_isSome acc s))

lemma foldl_minStep_mem (l : List UserSession) :
    ∀ (acc : Option UserSession) (b : UserSession),
      l.foldl minStep acc = some b → acc = some b ∨ b ∈ l := by
  induction l with
  | nil => intro acc b h; exact Or.inl (by simpa using h)
  | cons s t ih =>
    intro acc b h
    rcases ih (minStep acc s) b h with h' | h'
    · cases acc with
      | none =>
        have : s = b := by simpa [minStep] using h'
        exact Or.inr (this ▸ List.mem_cons_self s t)
      | some a =>
        by_cases hlt : s.last_activity < a.last_activity
        · have : s = b := by simpa [minStep, hlt] using h'
          exact Or.inr (this ▸ List.mem_cons_self s t)
        · have : a = b := by simpa [minStep, hlt] using h'
          exact Or.inl (by rw [this])
    · exact Or.inr (List.mem_cons_of_mem s h')

lemma foldl_minStep_le (l : List UserSession) :
    ∀ (acc : Option UserSession) (b : UserSession),
      l.foldl minStep acc = some b →
      (∀ a, acc = some a → b.last_activity ≤ a.last_activity)
      ∧ (∀ t ∈ l, b.last_activity ≤ t.last_activity) := by
  induction l with
  | nil =>
    intro acc b h
    refine ⟨?_, ?_⟩
    · intro a ha
      rw [ha] at h
      simp only [List.foldl_nil] at h
      rw [Option.some.inj h]
    · intro t ht
      exact absurd ht (by simp)
  | cons s t ih =>
    intro acc b h
    obtain ⟨hacc', hmem'⟩ := ih (minStep acc s) b h
    have hs : b.last_activity ≤ s.last_activity ∨
        (∃ a, acc = some a ∧ b.last_activity ≤ a.last_activity
          ∧ a.last_activity ≤ s.last_activity) := by
      cases acc with
      | none => exact Or.inl (hacc' s rfl)
      | some a =>
        by_cases hlt : s.last_activity < a.last_activity
        · exact Or.inl (hacc' s (by simp [minStep, hlt]))
        · refine Or.inr ⟨a, rfl, hacc' a (by simp [minStep, hlt]), by omega⟩
    refine ⟨?_, ?_⟩
    · intro a ha
      subst ha
      cases hstep : minStep (some a) s with
      | none =>
        have hs' := minStep_isSome (some a) s
        rw [hstep] at hs'
        exact absurd hs' (by simp)
      | some c =>
        have hbc := hacc' c hstep
        by_cases hlt : s.last_activity < a.last_activity
        · have hcs : s = c := by simpa [minStep, hlt] using hstep
          rw [← hcs] at hbc
          omega
        · have hca : a = c := by simpa [minStep, hlt] using hstep
          rw [← hca] at hbc
          exact hbc
    · intro t' ht'
      rcases List.mem_cons.mp ht' with h1 | h1
      · subst h1
        rcases hs with hle | ⟨a, _, hba, has⟩
        · exact hle
        · omega
      · exact hmem' t' h1

lemma oldestActive_spec (store : List UserSession) (u : Nat)
    (h : 0 < activeCount store u) :
    ∃ b, oldestActive store u = some b ∧ b ∈ store ∧ b.user = u
      ∧ b.is_active = true
      ∧ ∀ t ∈ store, t.user = u → t.is_active = true →
          b.last_activity ≤ t.last_activity := by
  have hne : store.filter (fun s => s.user == u && s.is_active) ≠ [] := by
    intro h0
    rw [activeCount, h0] at h
    simp at h
  have hsome := foldl_minStep_ne_none
    (store.filter (fun s => s.user == u && s.is_active)) none (Or.inr hne)
  obtain ⟨b, hb⟩ := Option.isSome_iff_exists.mp hsome
  have hb' : oldestActive store u = some b := hb
  have hmem := foldl_minStep_mem
    (store.filter (fun s => s.user == u && s.is_active)) none b hb
  rcases hmem with h0 | hmem
  · exact absurd h0 (by simp)
  · have hfp := List.mem_filter.mp hmem
    have hprop : b.user = u ∧ b.is_active = true := by
      have := hfp.2
      simp at this
      exact this
    refine ⟨b, hb', hfp.1, hprop.1, hprop.2, ?_⟩
    intro t ht htu hta
    have htf : t ∈ store.filter (fun s => s.user == u && s.is_active) :=
      List.mem_filter.mpr ⟨ht, by simp [htu, hta]⟩
    exact (foldl_minStep_le _ none b hb).2 t htf

lemma endInStore_ended (store : List UserSession) (sid : Nat) (now : Int) :
    ∀ t ∈ endInStore store sid now, t.id = sid →
      t.is_active = false ∧ t.ended_at = some now := by
  intro t ht htid
  obtain ⟨t₀, ht₀, hmap⟩ := List.mem_map.mp ht
  by_cases hid : t₀.id = sid
  · rw [← hmap]
    simp only [hid, beq_self_eq_true, if_true]
    exact ⟨rfl, rfl⟩
  · exfalso
    rw [← hmap] at htid
    rw [if_neg (by simp [hid])] at htid
    exact hid htid

lemma endInStore_other_preserved (store : List UserSession) (sid : Nat)
    (now : Int) : ∀ t ∈ store, t.id ≠ sid → t ∈ endInStore store sid now := by
  intro t ht hne
  have : (if t.id == sid then t.end_session now else t) = t := by
    simp [hne]
  exact this ▸ List.mem_map_of_mem _ ht

lemma endInStore_id_absent (l : List UserSession) (sid : Nat) (now : Int)
    (h : sid ∉ l.map (fun s => s.id)) : endInStore l sid now = l := by
  induction l with
  | nil => rfl
  | cons t ts ih =>
    simp only [List.map_cons, List.mem_cons, not_or] at h
    unfold endInStore
    simp only [List.map_cons]
    rw [if_neg (by simp; omega)]
    have := ih h.2
    unfold endInStore at this
    rw [this]

lemma activeCount_cons (t : UserSession) (ts : List UserSession) (u : Nat) :
    activeCount (t :: ts) u =
      (if t.user == u && t.is_active then 1 else 0) + activeCount ts u := by
  unfold activeCount
  rw [List.filter_cons]
  split <;> simp [Nat.add_comm]

lemma activeCount_endInStore (store : List UserSession) (u : Nat) (now : Int)
    (b : UserSession) (hmem : b ∈ store) (hu : b.user = u)
    (hact : b.is_active = true)
    (hnodup : (store.map (fun s => s.id)).Nodup) :
    activeCount (endInStore store b.id now) u + 1 = activeCount store u := by
  induction store with
  | nil => exact absurd hmem (by simp)
  | cons t ts ih =>
    simp only [List.map_cons, List.nodup_cons] at hnodup
    rcases List.mem_cons.mp hmem with h1 | h1
    · subst h1
      have habsent : endInStore ts b.id now = ts :=
        endInStore_id_absent ts b.id now hnodup.1
      unfold endInStore
      simp only [List.map_cons, beq_self_eq_true, if_true]
      have hstep : List.map
          (fun t => if t.id == b.id then t.end_session now else t) ts = ts := habsent
      rw [hstep]
      rw [activeCount_cons, activeCount_cons]
      simp only [UserSession.end_session, Bool.and_false, if_false]
      simp [hu, hact]
      omega
    · have hne : t.id ≠ b.id := by
        intro heq
        exact hnodup.1 (heq ▸ List.mem_map_of_mem (fun s => s.id) h1)
      unfold endInStore
      simp only [List.map_cons]
      rw [if_neg (by simp [hne])]
      have := ih h1 hnodup.2
      unfold endInStore at this
      rw [activeCount_cons, activeCount_cons]
      omega

/-- C8: the concurrency check never blocks (it returns `True` on every
input), and when the active count has reached the limit it ends exactly
the oldest-by-`last_activity` active session of the user: that session
is ended (`is_active = false`, `ended_at` set), every other row is
preserved verbatim, and the user's active count drops by exactly one. -/
theorem C8_concurrent_limit_evicts_oldest (req : SecRequest)
    (store : List UserSession) (limit : Nat) (now : Int)
    (hraise : req.raise_in_concurrent = false)
    (hcount : limit ≤ activeCount store req.user_id) (hpos : 1 ≤ limit)
    (hnodup : (store.map (fun s => s.id)).Nodup)
    (req2 : SecRequest) (store2 : List UserSession) (limit2 : Nat) (now2 : Int) :
    (check_concurrent_sessions req2 store2 limit2 now2).1 = true
    ∧ ∃ b, oldestActive store req.user_id = some b
        ∧ b ∈ store ∧ b.user = req.user_id ∧ b.is_active = true
        ∧ (∀ t ∈ store, t.user = req.user_id → t.is_active = true →
            b.last_activity ≤ t.last_activity)
        ∧ (check_concurrent_sessions req store limit now).2 =
            endInStore store b.id now
        ∧ (∀ t ∈ endInStore store b.id now, t.id = b.id →
            t.is_active = false ∧ t.ended_at = some now)
        ∧ (∀ t ∈ store, t.id ≠ b.id → t ∈ endInStore store b.id now)
        ∧ activeCount (endInStore store b.id now) req.user_id + 1 =
            activeCount store req.user_id := by
  refine ⟨check_concurrent_fst_true req2 store2 limit2 now2, ?_⟩
  obtain ⟨b, hb, hbmem, hbu, hba, hmin⟩ :=
    oldestActive_spec store req.user_id (by omega)
  refine ⟨b, hb, hbmem, hbu, hba, hmin, ?_,
    endInStore_ended store b.id now,
    endInStore_other_preserved store b.id now,
    activeCount_endInStore store req.user_id now b hbmem hbu hba hnodup⟩
  unfold check_concurrent_sessions
  simp [hraise, hcount, hb]

/-- A session row for the C8 witness store. -/
def mkSess (i : Nat) (la : Int) : UserSession :=
  { sessA with id := i, last_activity := la }

/-- Six active sessions of user 1, oldest (id 1) has `last_activity` 10. -/
def store6 : List UserSession :=
  [mkSess 1 10, mkSess 2 20, mkSess 3 30, mkSess 4 40, mkSess 5 50, mkSess 6 60]

/-- C8 witness (Scenario E): six active sessions with limit 5 — the
check returns true, evicts exactly the oldest session (id 1), and the
active count drops from 6 to 5. -/
theorem C8_concurrent_limit_evicts_oldest_witness :
    (check_concurrent_sessions secReqBase store6 5 99).1 = true
    ∧ (check_concurrent_sessions secReqBase store6 5 99).2 =
        endInStore store6 1 99
    ∧ oldestActive store6 1 = some (mkSess 1 10)
    ∧ activeCount store6 1 = 6
    ∧ activeCount (endInStore store6 1 99) 1 = 5 := by
  have h := C8_concurrent_limit_evicts_oldest secReqBase store6 5 99
    rfl (by decide) (by decide) (by decide) secReqBase store6 5 99
  exact ⟨h.1, by decide, by decide, by decide, by decide⟩

end Elate
